import Mathlib

/-!
Shallow embedding of `src/src/libstd/rt/uv/uvll.rs`, the low-level libuv
binding layer of the Rust runtime, together with proofs of the spec's
claims about it.

The Rust file is mostly a set of thin wrappers over `extern` backend
functions (`rust_uv_*`, implemented in the runtime's C++ support code,
which is not part of this source tree).  The pure logic that does live in
the file — the error-code tables, the handle/request kind enumerations,
the centralized allocator `malloc_handle`/`malloc_req` with its
assertions, the `free_handle`/`free_req` companions, the stdio container
flag constants, and the `uv_stat_t` structure with `is_file`/`is_dir` —
is embedded directly.  Backend behaviour that a claim depends on but that
is only declared here (sizes reported by `rust_uv_handle_size`, the
semantics of request submission, async coalescing, address marshaling,
data-pointer storage) is either abstracted as a parameter or modelled
from the spec; such definitions carry a `Modelled from the spec:` doc
comment.

Machine integers: `c_int` values are embedded as `Int`, pointers and
`size_t`/`uint64_t` values as `Nat` (with `0` playing the role of the
null pointer).  No arithmetic in the embedded code can overflow at the
embedded values, so no wrap-around modelling is needed.
-/

namespace Uvll

/-- A native pointer, modelled as a natural number; `0` is the null pointer. -/
abbrev Ptr := Nat

/-! ## Error-code constants (uvll.rs lines 43-69) -/

/-- `pub static OK: c_int = 0;` -/
def OK : Int := 0

/-- `pub static EOF: c_int = -4095;` -/
def EOF : Int := -4095

/-- `pub static UNKNOWN: c_int = -4094;` -/
def UNKNOWN : Int := -4094

/-! The `#[cfg(windows)] mod errors` table: literal constants. -/
namespace errors_windows

def EACCES : Int := -4093
def ECONNREFUSED : Int := -4079
def ECONNRESET : Int := -4078
def ENOTCONN : Int := -4054
def EPIPE : Int := -4048

end errors_windows

/-- The positive POSIX errno constants supplied by `libc` on a unix
platform.  They are external to this source tree, so the unix error
table is parameterized over them. -/
structure LibcErrno where
  EACCES : Int
  ECONNREFUSED : Int
  ECONNRESET : Int
  ENOTCONN : Int
  EPIPE : Int

/-! The `#[cfg(not(windows))] mod errors` table: each code is the
negation of the platform's libc errno constant. -/
namespace errors_unix

def EACCES (l : LibcErrno) : Int := -l.EACCES
def ECONNREFUSED (l : LibcErrno) : Int := -l.ECONNREFUSED
def ECONNRESET (l : LibcErrno) : Int := -l.ECONNRESET
def ENOTCONN (l : LibcErrno) : Int := -l.ENOTCONN
def EPIPE (l : LibcErrno) : Int := -l.EPIPE

end errors_unix

/-! ## Process and stdio flag constants (uvll.rs lines 71-82) -/

def PROCESS_SETUID : Nat := 1 <<< 0
def PROCESS_SETGID : Nat := 1 <<< 1
def PROCESS_WINDOWS_VERBATIM_ARGUMENTS : Nat := 1 <<< 2
def PROCESS_DETACHED : Nat := 1 <<< 3
def PROCESS_WINDOWS_HIDE : Nat := 1 <<< 4

def STDIO_IGNORE : Nat := 0x00
def STDIO_CREATE_PIPE : Nat := 0x01
def STDIO_INHERIT_FD : Nat := 0x02
def STDIO_INHERIT_STREAM : Nat := 0x04
def STDIO_READABLE_PIPE : Nat := 0x10
def STDIO_WRITABLE_PIPE : Nat := 0x20

/-- The four mutually exclusive disposition constants of a stdio
container descriptor. -/
def stdio_dispositions : List Nat :=
  [STDIO_IGNORE, STDIO_CREATE_PIPE, STDIO_INHERIT_FD, STDIO_INHERIT_STREAM]

/-- A stdio container's flag word: one disposition or-ed with any subset
of the two direction flags (the subset encoded by the two booleans). -/
def stdio_combine (d : Nat) (r w : Bool) : Nat :=
  (d ||| (if r then STDIO_READABLE_PIPE else 0)) |||
    (if w then STDIO_WRITABLE_PIPE else 0)

/-! ## Handle and request kind enumerations (uvll.rs lines 274-335) -/

/-- `pub enum uv_handle_type` (uvll.rs lines 275-295), with the Rust
discriminant values made explicit by `toNat` below. -/
inductive uv_handle_type where
  | UV_UNKNOWN_HANDLE
  | UV_ASYNC
  | UV_CHECK
  | UV_FS_EVENT
  | UV_FS_POLL
  | UV_HANDLE
  | UV_IDLE
  | UV_NAMED_PIPE
  | UV_POLL
  | UV_PREPARE
  | UV_PROCESS
  | UV_STREAM
  | UV_TCP
  | UV_TIMER
  | UV_TTY
  | UV_UDP
  | UV_SIGNAL
  | UV_FILE
  | UV_HANDLE_TYPE_MAX
deriving DecidableEq

/-- The Rust `handle as uint` cast: the enum discriminant. -/
def uv_handle_type.toNat : uv_handle_type → Nat
  | .UV_UNKNOWN_HANDLE => 0
  | .UV_ASYNC => 1
  | .UV_CHECK => 2
  | .UV_FS_EVENT => 3
  | .UV_FS_POLL => 4
  | .UV_HANDLE => 5
  | .UV_IDLE => 6
  | .UV_NAMED_PIPE => 7
  | .UV_POLL => 8
  | .UV_PREPARE => 9
  | .UV_PROCESS => 10
  | .UV_STREAM => 11
  | .UV_TCP => 12
  | .UV_TIMER => 13
  | .UV_TTY => 14
  | .UV_UDP => 15
  | .UV_SIGNAL => 16
  | .UV_FILE => 17
  | .UV_HANDLE_TYPE_MAX => 18

/-- `#[cfg(unix)] pub enum uv_req_type` (uvll.rs lines 299-310).  The
windows variant inserts extra private request kinds before
`UV_REQ_TYPE_MAX`; the allocator logic under verification only tests the
two sentinel constructors, which both variants share. -/
inductive uv_req_type where
  | UV_UNKNOWN_REQ
  | UV_REQ
  | UV_CONNECT
  | UV_WRITE
  | UV_SHUTDOWN
  | UV_UDP_SEND
  | UV_FS
  | UV_WORK
  | UV_GETADDRINFO
  | UV_REQ_TYPE_MAX
deriving DecidableEq

/-- The Rust `req as uint` cast: the enum discriminant. -/
def uv_req_type.toNat : uv_req_type → Nat
  | .UV_UNKNOWN_REQ => 0
  | .UV_REQ => 1
  | .UV_CONNECT => 2
  | .UV_WRITE => 3
  | .UV_SHUTDOWN => 4
  | .UV_UDP_SEND => 5
  | .UV_FS => 6
  | .UV_WORK => 7
  | .UV_GETADDRINFO => 8
  | .UV_REQ_TYPE_MAX => 9

/-! ## The opaque allocator (uvll.rs lines 343-373) -/

/-- The external allocation environment of `malloc_handle`/`malloc_req`:
the backend size-lookup functions `rust_uv_handle_size` and
`rust_uv_req_size` (declared `extern` in uvll.rs, implemented in the
runtime's C++ code) and libc `malloc` (returning `0` for a null
pointer).  The uvll allocator logic is verified for every such
environment. -/
structure AllocBackend where
  handle_size : Nat → Nat
  req_size : Nat → Nat
  malloc : Nat → Ptr

/-- Outcome of a call that either returns a pointer or hits a failed
`assert!` (a process abort). -/
inductive AllocResult where
  | ok (p : Ptr)
  | abort
deriving DecidableEq

/-- `malloc_handle` (uvll.rs lines 343-351): assert the kind is not a
sentinel, look the size up from the backend, `malloc` it, assert the
result is non-null, return it. -/
def malloc_handle (B : AllocBackend) (handle : uv_handle_type) : AllocResult :=
  if handle = .UV_UNKNOWN_HANDLE ∨ handle = .UV_HANDLE_TYPE_MAX then .abort
  else
    let size := B.handle_size handle.toNat
    let p := B.malloc size
    if p = 0 then .abort else .ok p

/-- `malloc_req` (uvll.rs lines 359-367): the same shape over
`uv_req_type` and `rust_uv_req_size`. -/
def malloc_req (B : AllocBackend) (req : uv_req_type) : AllocResult :=
  if req = .UV_UNKNOWN_REQ ∨ req = .UV_REQ_TYPE_MAX then .abort
  else
    let size := B.req_size req.toNat
    let p := B.malloc size
    if p = 0 then .abort else .ok p

/-- Outcome of a free call: either the pointer was handed to libc
`free`, or the call aborted.  (The abort constructor records that an
abort path is expressible; the theorems show the free wrappers never
take it.) -/
inductive FreeResult where
  | freed (p : Ptr)
  | abort
deriving DecidableEq

/-- `free_handle` (uvll.rs lines 353-357): the body is exactly
`free(v)`. -/
def free_handle (v : Ptr) : FreeResult := .freed v

/-- `free_req` (uvll.rs lines 369-373): the body is exactly
`free(v)`. -/
def free_req (v : Ptr) : FreeResult := .freed v

/-! ## `uv_stat_t` (uvll.rs lines 135-186) -/

/-- `pub struct uv_timespec_t` (uvll.rs lines 135-138); the `c_long`
fields are embedded as `Int`. -/
structure uv_timespec_t where
  tv_sec : Int
  tv_nsec : Int
deriving DecidableEq

/-- `pub struct uv_stat_t` (uvll.rs lines 140-157); the `uint64_t`
fields are embedded as `Nat`. -/
structure uv_stat_t where
  st_dev : Nat
  st_mode : Nat
  st_nlink : Nat
  st_uid : Nat
  st_gid : Nat
  st_rdev : Nat
  st_ino : Nat
  st_size : Nat
  st_blksize : Nat
  st_blocks : Nat
  st_flags : Nat
  st_gen : Nat
  st_atim : uv_timespec_t
  st_mtim : uv_timespec_t
  st_ctim : uv_timespec_t
  st_birthtim : uv_timespec_t
deriving DecidableEq

/-- `uv_stat_t::new()` (uvll.rs lines 160-179): every field zero. -/
def uv_stat_t.new : uv_stat_t where
  st_dev := 0
  st_mode := 0
  st_nlink := 0
  st_uid := 0
  st_gid := 0
  st_rdev := 0
  st_ino := 0
  st_size := 0
  st_blksize := 0
  st_blocks := 0
  st_flags := 0
  st_gen := 0
  st_atim := ⟨0, 0⟩
  st_mtim := ⟨0, 0⟩
  st_ctim := ⟨0, 0⟩
  st_birthtim := ⟨0, 0⟩

/-- The libc file-mode constants `S_IFMT`, `S_IFREG`, `S_IFDIR` used by
`is_file`/`is_dir`.  They come from `libc`, outside this source tree, so
the predicates are parameterized over them (values are below 2^32, so the
`as uint64_t` cast is the identity in `Nat`). -/
structure LibcStatConsts where
  S_IFMT : Nat
  S_IFREG : Nat
  S_IFDIR : Nat

/-- `uv_stat_t::is_file` (uvll.rs lines 180-182):
`(st_mode & S_IFMT) == S_IFREG`. -/
def uv_stat_t.is_file (L : LibcStatConsts) (s : uv_stat_t) : Bool :=
  (s.st_mode &&& L.S_IFMT) == L.S_IFREG

/-- `uv_stat_t.is_dir` (uvll.rs lines 183-185):
`(st_mode & S_IFMT) == S_IFDIR`. -/
def uv_stat_t.is_dir (L : LibcStatConsts) (s : uv_stat_t) : Bool :=
  (s.st_mode &&& L.S_IFMT) == L.S_IFDIR

/-! ## Request submission and completion (uvll.rs lines 550-562, 619-628,
470-486, 765-823, 950-956)

Each kind-specific submission wrapper in uvll.rs (`tcp_connect`,
`write`, `udp_send`, `getaddrinfo`, `fs_open`, `fs_read`, ...) forwards
to the corresponding `rust_uv_*` extern function and returns its `c_int`
status verbatim.  The completion-callback semantics of the backend is
not in this source tree, so it is modelled from the spec below. -/

/-- The kind-specific submission constructors exported by uvll.rs. -/
inductive RequestCtor where
  | tcp_connect
  | tcp_connect6
  | write
  | udp_send
  | udp_send6
  | getaddrinfo
  | fs_open
  | fs_unlink
  | fs_write
  | fs_read
  | fs_close
  | fs_stat
  | fs_fstat
  | fs_mkdir
  | fs_rmdir
  | fs_readdir
deriving DecidableEq

/-- The synchronous `c_int` status each `rust_uv_*` submission function
would return for a request of a given kind; abstract, since the backend
is outside this source tree. -/
structure SubmitBackend where
  status : RequestCtor → Int

/-- The lifecycle state of a single request after its submission call
returned. -/
inductive ReqState where
  | pending
  | completed
  | failed
deriving DecidableEq

/-- Modelled from the spec: the missing `rust_uv_*` submission
semantics.  A submission constructor returns the backend's synchronous
status; status `0` means the request was accepted and is now pending in
the reactor, any other status means it was rejected before submission
and is dead. -/
def submitRequest (B : SubmitBackend) (k : RequestCtor) : Int × ReqState :=
  let s := B.status k
  if s = 0 then (s, .pending) else (s, .failed)

/-- Modelled from the spec: one reactor iteration as seen by a single
request.  A pending request completes, firing its completion callback
exactly then (the returned count is the number of callback invocations
in the iteration); completed and failed requests are terminal and never
fire again. -/
def reqStep : ReqState → ReqState × Nat
  | .pending => (.completed, 1)
  | s => (s, 0)

/-- Run `n` reactor iterations from a request state, accumulating the
number of completion-callback invocations. -/
def reqRun : Nat → ReqState → ReqState × Nat
  | 0, s => (s, 0)
  | n + 1, s =>
    let p := reqStep s
    let q := reqRun n p.1
    (q.1, p.2 + q.2)

/-! ## Per-object user data pointers (uvll.rs lines 910-939)

`get_data_for_uv_loop`, `set_data_for_uv_loop`,
`get_data_for_uv_handle`, `set_data_for_uv_handle`, `get_data_for_req`
and `set_data_for_req` forward to `rust_uv_get/set_data_for_*` extern
functions; the storage they manipulate is inside the native structs, so
it is modelled from the spec. -/

/-- Modelled from the spec: the data-pointer slots of all loops, handles
and requests, as three maps from object identity (a `Nat` naming the
native object) to the stored user data pointer. -/
structure CtxState where
  loopData : Nat → Ptr
  handleData : Nat → Ptr
  reqData : Nat → Ptr

/-- `set_data_for_uv_loop` (uvll.rs lines 915-919): store `data` in the
loop's data slot. -/
def set_data_for_uv_loop (st : CtxState) (l : Nat) (data : Ptr) : CtxState :=
  { st with loopData := fun x => if x = l then data else st.loopData x }

/-- `get_data_for_uv_loop` (uvll.rs lines 910-914): read the loop's data
slot. -/
def get_data_for_uv_loop (st : CtxState) (l : Nat) : Ptr := st.loopData l

/-- `set_data_for_uv_handle` (uvll.rs lines 925-929). -/
def set_data_for_uv_handle (st : CtxState) (h : Nat) (data : Ptr) : CtxState :=
  { st with handleData := fun x => if x = h then data else st.handleData x }

/-- `get_data_for_uv_handle` (uvll.rs lines 920-924). -/
def get_data_for_uv_handle (st : CtxState) (h : Nat) : Ptr := st.handleData h

/-- `set_data_for_req` (uvll.rs lines 935-939). -/
def set_data_for_req (st : CtxState) (r : Nat) (data : Ptr) : CtxState :=
  { st with reqData := fun x => if x = r then data else st.reqData x }

/-- `get_data_for_req` (uvll.rs lines 930-934). -/
def get_data_for_req (st : CtxState) (r : Nat) : Ptr := st.reqData r

/-! ## IPv4 socket-address marshaling (uvll.rs lines 704-709, 741-745,
753-757)

`malloc_ip4_addr`, `ip4_name` and `ip4_port` forward to
`rust_uv_ip4_addrp`, `rust_uv_ip4_name` and `rust_uv_ip4_port`, which
wrap libuv's `uv_ip4_addr`/`uv_ip4_name` (inet_pton/inet_ntop plus
htons/ntohs).  That code is outside this source tree, so it is modelled
from the spec here: an opaque IPv4 address block holds four octets and a
16-bit port; construction parses a dotted-quad string, `ip4_name`
formats it back (the destination-buffer signature of the C function is
abstracted to returning the string), `ip4_port` reads the port. -/

/-- Modelled from the spec: the opaque `sockaddr_in` block, as its
observable content — four address octets and the stored port. -/
structure sockaddr_in where
  o1 : Nat
  o2 : Nat
  o3 : Nat
  o4 : Nat
  port : Nat
deriving DecidableEq

/-- Split a character list into the groups separated by `.`. -/
def splitOnDot : List Char → List (List Char)
  | [] => [[]]
  | c :: cs =>
    if c = '.' then [] :: splitOnDot cs
    else
      match splitOnDot cs with
      | [] => [[c]]
      | g :: gs => (c :: g) :: gs

/-- Parse one decimal octet: nonempty, all digits, value at most 255. -/
def parseOctet (cs : List Char) : Option Nat :=
  if cs ≠ [] ∧ cs.all Char.isDigit then
    let n := cs.foldl (fun acc c => acc * 10 + (c.toNat - 48)) 0
    if n ≤ 255 then some n else none
  else none

/-- Modelled from the spec: `malloc_ip4_addr(ip, port)` builds the
native `sockaddr_in` from the dotted-quad text and the port (the
backend stores the low 16 bits, as `htons` does); an unparsable address
yields no block. -/
def malloc_ip4_addr (ip : String) (port : Int) : Option sockaddr_in :=
  match (splitOnDot ip.data).mapM parseOctet with
  | some [a, b, c, d] => some ⟨a, b, c, d, port.toNat % 65536⟩
  | _ => none

/-- Modelled from the spec: `ip4_name(addr)` renders the stored octets
back to dotted-quad text. -/
def ip4_name (addr : sockaddr_in) : String :=
  toString addr.o1 ++ "." ++ toString addr.o2 ++ "." ++
    toString addr.o3 ++ "." ++ toString addr.o4

/-- Modelled from the spec: `ip4_port(addr)` reads the stored port back
(`ntohs`). -/
def ip4_port (addr : sockaddr_in) : Nat := addr.port

/-! ## AsyncWakeup coalescing (uvll.rs lines 660-664)

`async_send` forwards to `rust_uv_async_send` (libuv `uv_async_send`);
the pending-flag semantics lives in the backend, so it is modelled from
the spec: a `send` marks the async handle pending, and when the loop
observes the handle it fires the callback once and clears the flag —
sends that arrive before the loop observes any of them coalesce. -/

/-- An event in the life of one async handle: a (possibly foreign-thread)
`async_send`, or the loop polling the handle. -/
inductive AsyncEvent where
  | send
  | poll
deriving DecidableEq

/-- Modelled from the spec: one event against the pending flag.  Returns
the new flag and the number of callback invocations (1 exactly when a
poll observes the flag set). -/
def asyncStep (p : Bool) : AsyncEvent → Bool × Nat
  | .send => (true, 0)
  | .poll => if p then (false, 1) else (false, 0)

/-- Run a sequence of events from a pending-flag state, accumulating the
number of callback invocations. -/
def asyncRun : Bool → List AsyncEvent → Bool × Nat
  | p, [] => (p, 0)
  | p, e :: es =>
    let q := asyncStep p e
    let r := asyncRun q.1 es
    (r.1, q.2 + r.2)

/-! ## Helper lemmas -/

theorem reqRun_completed (n : Nat) : reqRun n .completed = (.completed, 0) := by
  induction n with
  | zero => rfl
  | succ m ih => simp [reqRun, reqStep, ih]

theorem reqRun_failed (n : Nat) : reqRun n .failed = (.failed, 0) := by
  induction n with
  | zero => rfl
  | succ m ih => simp [reqRun, reqStep, ih]

theorem reqRun_pending (n : Nat) : reqRun (n + 1) .pending = (.completed, 1) := by
  simp [reqRun, reqStep, reqRun_completed]

theorem submitRequest_fst (B : SubmitBackend) (k : RequestCtor) :
    (submitRequest B k).1 = B.status k := by
  by_cases hs : B.status k = 0 <;> simp [submitRequest, hs]

theorem asyncRun_append (p : Bool) (xs ys : List AsyncEvent) :
    asyncRun p (xs ++ ys) =
      ((asyncRun (asyncRun p xs).1 ys).1,
        (asyncRun p xs).2 + (asyncRun (asyncRun p xs).1 ys).2) := by
  induction xs generalizing p with
  | nil => simp [asyncRun]
  | cons e es ih => simp [asyncRun, ih, Nat.add_assoc]

theorem asyncRun_cons (p : Bool) (e : AsyncEvent) (es : List AsyncEvent) :
    asyncRun p (e :: es) =
      ((asyncRun (asyncStep p e).1 es).1,
        (asyncStep p e).2 + (asyncRun (asyncStep p e).1 es).2) := rfl

theorem asyncRun_sends (p : Bool) (m : Nat) :
    asyncRun p (List.replicate (m + 1) .send) = (true, 0) := by
  induction m generalizing p with
  | zero => rfl
  | succ k ih => rw [List.replicate_succ, asyncRun_cons]; rw [ih]; rfl

theorem asyncRun_polls_false (m : Nat) :
    asyncRun false (List.replicate m .poll) = (false, 0) := by
  induction m with
  | zero => rfl
  | succ k ih =>
    rw [List.replicate_succ, asyncRun_cons]
    rw [show (asyncStep false .poll).1 = false from rfl, ih]
    rfl

theorem asyncRun_polls_true (m : Nat) :
    asyncRun true (List.replicate (m + 1) .poll) = (false, 1) := by
  rw [List.replicate_succ, asyncRun_cons]
  rw [show (asyncStep true .poll).1 = false from rfl, asyncRun_polls_false]
  rfl

/-! ## The claims -/

/-- C1: for every request kind, the kind-specific submission constructor
returns a synchronous integer status; a return of 0 means the request
was submitted and its completion callback fires exactly once over any
run of the reactor, and a negative return means it failed before
submission and its callback never fires. -/
theorem c1_submission_status_contract (B : SubmitBackend) (k : RequestCtor)
    (n : Nat) (hn : 1 ≤ n) :
    ((submitRequest B k).1 = 0 → (reqRun n (submitRequest B k).2).2 = 1)
  ∧ ((submitRequest B k).1 < 0 → (reqRun n (submitRequest B k).2).2 = 0) := by
  obtain ⟨m, rfl⟩ : ∃ m, n = m + 1 := ⟨n - 1, (Nat.succ_pred_eq_of_pos hn).symm⟩
  by_cases hs : B.status k = 0
  · refine ⟨fun _ => ?_, fun hneg => ?_⟩
    · simp [submitRequest, hs, reqRun_pending]
    · simp [submitRequest, hs] at hneg
  · refine ⟨fun h0 => ?_, fun _ => ?_⟩
    · exact absurd (submitRequest_fst B k ▸ h0) hs
    · simp [submitRequest, hs, reqRun_failed]

/-- Witness for C1: a backend that accepts every submission, the
`tcp_connect` constructor, one reactor iteration. -/
theorem c1_submission_status_contract_witness :
    (submitRequest ⟨fun _ => 0⟩ .tcp_connect).1 = 0 ∧
    (reqRun 1 (submitRequest ⟨fun _ => 0⟩ .tcp_connect).2).2 = 1 :=
  ⟨rfl, (c1_submission_status_contract ⟨fun _ => 0⟩ .tcp_connect 1 (by decide)).1 rfl⟩

/-- C2: `malloc_handle` and `malloc_req` abort (assertion failure)
exactly when the kind is a sentinel (`UV_UNKNOWN_HANDLE`,
`UV_HANDLE_TYPE_MAX`, `UV_UNKNOWN_REQ`, `UV_REQ_TYPE_MAX`) or the
underlying allocation returns null; there is no other failure path, and
whenever a pointer is returned it is non-null. -/
theorem c2_allocator_abort_contract (B : AllocBackend)
    (h : uv_handle_type) (r : uv_req_type) :
    (malloc_handle B h = .abort ↔
      h = .UV_UNKNOWN_HANDLE ∨ h = .UV_HANDLE_TYPE_MAX ∨
        B.malloc (B.handle_size h.toNat) = 0)
  ∧ (∀ p, malloc_handle B h = .ok p → p ≠ 0)
  ∧ (malloc_req B r = .abort ↔
      r = .UV_UNKNOWN_REQ ∨ r = .UV_REQ_TYPE_MAX ∨
        B.malloc (B.req_size r.toNat) = 0)
  ∧ (∀ p, malloc_req B r = .ok p → p ≠ 0) := by
  refine ⟨?_, ?_, ?_, ?_⟩
  · by_cases hsent : h = .UV_UNKNOWN_HANDLE ∨ h = .UV_HANDLE_TYPE_MAX
    · simp [malloc_handle, hsent]
      tauto
    · by_cases hz : B.malloc (B.handle_size h.toNat) = 0 <;>
        simp [malloc_handle, hsent, hz]
  · intro p hp
    by_cases hsent : h = .UV_UNKNOWN_HANDLE ∨ h = .UV_HANDLE_TYPE_MAX
    · simp [malloc_handle, hsent] at hp
    · by_cases hz : B.malloc (B.handle_size h.toNat) = 0 <;>
        simp [malloc_handle, hsent, hz] at hp
      exact fun h0 => hz (hp.trans h0)
  · by_cases hsent : r = .UV_UNKNOWN_REQ ∨ r = .UV_REQ_TYPE_MAX
    · simp [malloc_req, hsent]
      tauto
    · by_cases hz : B.malloc (B.req_size r.toNat) = 0 <;>
        simp [malloc_req, hsent, hz]
  · intro p hp
    by_cases hsent : r = .UV_UNKNOWN_REQ ∨ r = .UV_REQ_TYPE_MAX
    · simp [malloc_req, hsent] at hp
    · by_cases hz : B.malloc (B.req_size r.toNat) = 0 <;>
        simp [malloc_req, hsent, hz] at hp
      exact fun h0 => hz (hp.trans h0)

/-- Witness for C2: a backend whose malloc returns pointer 100, the
`UV_TCP` handle kind. -/
theorem c2_allocator_abort_contract_witness :
    malloc_handle ⟨fun _ => 8, fun _ => 16, fun _ => 100⟩ .UV_TCP = .ok 100 ∧
    (100 : Nat) ≠ 0 :=
  ⟨rfl, (c2_allocator_abort_contract ⟨fun _ => 8, fun _ => 16, fun _ => 100⟩
    .UV_TCP .UV_CONNECT).2.1 100 rfl⟩

/-- C3: for every non-sentinel kind, the allocator's result is exactly
libc malloc applied to the size the backend's size-lookup function
reports for that kind at call time — the size is the backend's answer,
never a constant of this layer (the statement holds for every backend
size function). -/
theorem c3_size_queried_from_backend (B : AllocBackend)
    (h : uv_handle_type) (r : uv_req_type)
    (hh1 : h ≠ .UV_UNKNOWN_HANDLE) (hh2 : h ≠ .UV_HANDLE_TYPE_MAX)
    (hr1 : r ≠ .UV_UNKNOWN_REQ) (hr2 : r ≠ .UV_REQ_TYPE_MAX) :
    malloc_handle B h =
      (if B.malloc (B.handle_size h.toNat) = 0 then .abort
       else .ok (B.malloc (B.handle_size h.toNat)))
  ∧ malloc_req B r =
      (if B.malloc (B.req_size r.toNat) = 0 then .abort
       else .ok (B.malloc (B.req_size r.toNat))) := by
  constructor <;> simp [malloc_handle, malloc_req, hh1, hh2, hr1, hr2]

/-- Witness for C3: a concrete backend, the `UV_TCP` and `UV_CONNECT`
kinds. -/
theorem c3_size_queried_from_backend_witness :
    malloc_handle ⟨fun _ => 8, fun _ => 16, fun _ => 100⟩ .UV_TCP = .ok 100 := by
  have h := c3_size_queried_from_backend ⟨fun _ => 8, fun _ => 16, fun _ => 100⟩
    .UV_TCP .UV_CONNECT (by decide) (by decide) (by decide) (by decide)
  simpa using h.1

/-- C4: `free_handle` and `free_req` release every pointer
unconditionally — no kind check, no null check, no abort path (the
pointer, null included, is always handed straight to libc free). -/
theorem c4_free_unconditional :
    ∀ v : Ptr, free_handle v = .freed v ∧ free_req v = .freed v ∧
      free_handle v ≠ .abort ∧ free_req v ≠ .abort :=
  fun v => ⟨rfl, rfl, by simp [free_handle], by simp [free_req]⟩

/-- C5: OK equals 0; on the windows configuration the named codes EOF,
UNKNOWN, EACCES, ECONNREFUSED, ECONNRESET, ENOTCONN, EPIPE are negative
and pairwise distinct; on a unix configuration the same holds provided
the libc errnos are positive, below 4094, and pairwise distinct (as they
are on every real platform). -/
theorem c5_error_code_table :
    (OK = 0
      ∧ EOF < 0 ∧ UNKNOWN < 0
      ∧ errors_windows.EACCES < 0 ∧ errors_windows.ECONNREFUSED < 0
      ∧ errors_windows.ECONNRESET < 0 ∧ errors_windows.ENOTCONN < 0
      ∧ errors_windows.EPIPE < 0
      ∧ [EOF, UNKNOWN, errors_windows.EACCES, errors_windows.ECONNREFUSED,
          errors_windows.ECONNRESET, errors_windows.ENOTCONN,
          errors_windows.EPIPE].Nodup)
  ∧ ∀ l : LibcErrno,
      (0 < l.EACCES ∧ 0 < l.ECONNREFUSED ∧ 0 < l.ECONNRESET ∧
        0 < l.ENOTCONN ∧ 0 < l.EPIPE) →
      (l.EACCES < 4094 ∧ l.ECONNREFUSED < 4094 ∧ l.ECONNRESET < 4094 ∧
        l.ENOTCONN < 4094 ∧ l.EPIPE < 4094) →
      [l.EACCES, l.ECONNREFUSED, l.ECONNRESET, l.ENOTCONN, l.EPIPE].Nodup →
      (errors_unix.EACCES l < 0 ∧ errors_unix.ECONNREFUSED l < 0 ∧
        errors_unix.ECONNRESET l < 0 ∧ errors_unix.ENOTCONN l < 0 ∧
        errors_unix.EPIPE l < 0
      ∧ [EOF, UNKNOWN, errors_unix.EACCES l, errors_unix.ECONNREFUSED l,
          errors_unix.ECONNRESET l, errors_unix.ENOTCONN l,
          errors_unix.EPIPE l].Nodup) := by
  constructor
  · refine ⟨rfl, by decide, by decide, by decide, by decide, by decide,
      by decide, by decide, by decide⟩
  · intro l hpos hlt hnd
    obtain ⟨p1, p2, p3, p4, p5⟩ := hpos
    obtain ⟨b1, b2, b3, b4, b5⟩ := hlt
    simp only [List.nodup_cons, List.mem_cons, List.mem_singleton,
      List.not_mem_nil, List.nodup_nil, or_false, not_or, and_true] at hnd ⊢
    simp only [errors_unix.EACCES, errors_unix.ECONNREFUSED,
      errors_unix.ECONNRESET, errors_unix.ENOTCONN, errors_unix.EPIPE,
      EOF, UNKNOWN, not_false_iff, and_true]
    omega

/-- Witness for C5: the linux errno values 13, 111, 104, 107, 32. -/
theorem c5_error_code_table_witness :
    errors_unix.EACCES ⟨13, 111, 104, 107, 32⟩ < 0 ∧
    errors_unix.ECONNREFUSED ⟨13, 111, 104, 107, 32⟩ < 0 ∧
    errors_unix.ECONNRESET ⟨13, 111, 104, 107, 32⟩ < 0 ∧
    errors_unix.ENOTCONN ⟨13, 111, 104, 107, 32⟩ < 0 ∧
    errors_unix.EPIPE ⟨13, 111, 104, 107, 32⟩ < 0 ∧
    [EOF, UNKNOWN, errors_unix.EACCES ⟨13, 111, 104, 107, 32⟩,
      errors_unix.ECONNREFUSED ⟨13, 111, 104, 107, 32⟩,
      errors_unix.ECONNRESET ⟨13, 111, 104, 107, 32⟩,
      errors_unix.ENOTCONN ⟨13, 111, 104, 107, 32⟩,
      errors_unix.EPIPE ⟨13, 111, 104, 107, 32⟩].Nodup :=
  c5_error_code_table.2 ⟨13, 111, 104, 107, 32⟩
    (by decide) (by decide) (by decide)

/-- C6: constructing an IPv4 socket address from ("127.0.0.1", 8080)
with `malloc_ip4_addr` and reading it back with `ip4_name` and
`ip4_port` yields "127.0.0.1" and 8080. -/
theorem c6_ip4_roundtrip :
    (malloc_ip4_addr "127.0.0.1" 8080).map (fun a => (ip4_name a, ip4_port a))
      = some ("127.0.0.1", 8080) := rfl

/-- C7: for every loop, handle or request and every data pointer,
get-context after set-context returns exactly the pointer that was set,
and setting the context of one object leaves the context of every other
object — same family or other family — unchanged. -/
theorem c7_context_roundtrip_frame (st : CtxState) (l h r o : Nat) (d : Ptr) :
    (get_data_for_uv_loop (set_data_for_uv_loop st l d) l = d
      ∧ (o ≠ l → get_data_for_uv_loop (set_data_for_uv_loop st l d) o =
          get_data_for_uv_loop st o)
      ∧ get_data_for_uv_handle (set_data_for_uv_loop st l d) o =
          get_data_for_uv_handle st o
      ∧ get_data_for_req (set_data_for_uv_loop st l d) o =
          get_data_for_req st o)
  ∧ (get_data_for_uv_handle (set_data_for_uv_handle st h d) h = d
      ∧ (o ≠ h → get_data_for_uv_handle (set_data_for_uv_handle st h d) o =
          get_data_for_uv_handle st o)
      ∧ get_data_for_uv_loop (set_data_for_uv_handle st h d) o =
          get_data_for_uv_loop st o
      ∧ get_data_for_req (set_data_for_uv_handle st h d) o =
          get_data_for_req st o)
  ∧ (get_data_for_req (set_data_for_req st r d) r = d
      ∧ (o ≠ r → get_data_for_req (set_data_for_req st r d) o =
          get_data_for_req st o)
      ∧ get_data_for_uv_loop (set_data_for_req st r d) o =
          get_data_for_uv_loop st o
      ∧ get_data_for_uv_handle (set_data_for_req st r d) o =
          get_data_for_uv_handle st o) := by
  refine ⟨⟨?_, fun ho => ?_, rfl, rfl⟩, ⟨?_, fun ho => ?_, rfl, rfl⟩,
    ⟨?_, fun ho => ?_, rfl, rfl⟩⟩ <;>
    simp [get_data_for_uv_loop, set_data_for_uv_loop, get_data_for_uv_handle,
      set_data_for_uv_handle, get_data_for_req, set_data_for_req, *]

/-- Witness for C7: set loop 1's context to 42 in an all-zero state and
read back loop 1 and loop 4. -/
theorem c7_context_roundtrip_frame_witness :
    get_data_for_uv_loop
      (set_data_for_uv_loop ⟨fun _ => 0, fun _ => 0, fun _ => 0⟩ 1 42) 1 = 42 ∧
    get_data_for_uv_loop
      (set_data_for_uv_loop ⟨fun _ => 0, fun _ => 0, fun _ => 0⟩ 1 42) 4 = 0 :=
  ⟨(c7_context_roundtrip_frame ⟨fun _ => 0, fun _ => 0, fun _ => 0⟩
      1 2 3 4 42).1.1,
    (c7_context_roundtrip_frame ⟨fun _ => 0, fun _ => 0, fun _ => 0⟩
      1 2 3 4 42).1.2.1 (by decide)⟩

/-- C8: the three nonzero disposition constants and the two direction
flags occupy disjoint bit positions, no disposition overlaps the
direction bits, and the or-combination of one disposition with any
subset of the direction flags is uniquely decodable into its parts. -/
theorem c8_stdio_flags_decodable :
    (STDIO_CREATE_PIPE &&& STDIO_INHERIT_FD = 0
      ∧ STDIO_CREATE_PIPE &&& STDIO_INHERIT_STREAM = 0
      ∧ STDIO_INHERIT_FD &&& STDIO_INHERIT_STREAM = 0
      ∧ STDIO_READABLE_PIPE &&& STDIO_WRITABLE_PIPE = 0
      ∧ ∀ d ∈ stdio_dispositions,
          d &&& (STDIO_READABLE_PIPE ||| STDIO_WRITABLE_PIPE) = 0)
  ∧ ∀ d ∈ stdio_dispositions, ∀ e ∈ stdio_dispositions,
      ∀ r w u v : Bool,
        stdio_combine d r w = stdio_combine e u v →
          d = e ∧ r = u ∧ w = v := by decide

/-- Witness for C8: the inherit-fd disposition with the readable flag
only, decoded against itself. -/
theorem c8_stdio_flags_decodable_witness :
    STDIO_INHERIT_FD = STDIO_INHERIT_FD ∧ true = true ∧ false = false :=
  c8_stdio_flags_decodable.2 STDIO_INHERIT_FD (by decide)
    STDIO_INHERIT_FD (by decide) true false true false rfl

/-- C9: N async sends (N ≥ 1) all arriving before the loop observes the
handle, followed by the loop polling it, produce at least one and at
most N callback invocations. -/
theorem c9_async_coalescing (N M : Nat) (hN : 1 ≤ N) (hM : 1 ≤ M) :
    1 ≤ (asyncRun false (List.replicate N .send ++ List.replicate M .poll)).2
  ∧ (asyncRun false (List.replicate N .send ++ List.replicate M .poll)).2 ≤ N := by
  obtain ⟨n, rfl⟩ : ∃ n, N = n + 1 := ⟨N - 1, (Nat.succ_pred_eq_of_pos hN).symm⟩
  obtain ⟨m, rfl⟩ : ∃ m, M = m + 1 := ⟨M - 1, (Nat.succ_pred_eq_of_pos hM).symm⟩
  simp [asyncRun_append, asyncRun_sends, asyncRun_polls_true]

/-- Witness for C9: two sends then one poll. -/
theorem c9_async_coalescing_witness :
    1 ≤ (asyncRun false (List.replicate 2 .send ++ List.replicate 1 .poll)).2 ∧
    (asyncRun false (List.replicate 2 .send ++ List.replicate 1 .poll)).2 ≤ 2 :=
  c9_async_coalescing 2 1 (by decide) (by decide)

/-- C10: `is_file` and `is_dir` test the same masked mode field against
two different constants and so are never both true; `uv_stat_t::new()`
has every field zero, and both predicates are false on it. -/
theorem c10_stat_predicates (L : LibcStatConsts) (s : uv_stat_t)
    (hne : L.S_IFREG ≠ L.S_IFDIR) (hreg : L.S_IFREG ≠ 0) (hdir : L.S_IFDIR ≠ 0) :
    ¬(uv_stat_t.is_file L s = true ∧ uv_stat_t.is_dir L s = true)
  ∧ uv_stat_t.new =
      ⟨0, 0, 0, 0, 0, 0, 0, 0, 0, 0, 0, 0, ⟨0, 0⟩, ⟨0, 0⟩, ⟨0, 0⟩, ⟨0, 0⟩⟩
  ∧ uv_stat_t.is_file L uv_stat_t.new = false
  ∧ uv_stat_t.is_dir L uv_stat_t.new = false := by
  refine ⟨?_, rfl, ?_, ?_⟩
  · rintro ⟨hf, hd⟩
    simp [uv_stat_t.is_file, uv_stat_t.is_dir] at hf hd
    omega
  · simp [uv_stat_t.is_file, uv_stat_t.new, Nat.zero_and]
    omega
  · simp [uv_stat_t.is_dir, uv_stat_t.new, Nat.zero_and]
    omega

/-- Witness for C10: the standard mode constants S_IFMT = 0xF000,
S_IFREG = 0x8000, S_IFDIR = 0x4000, on the fresh zeroed stat. -/
theorem c10_stat_predicates_witness :
    uv_stat_t.is_file ⟨0xF000, 0x8000, 0x4000⟩ uv_stat_t.new = false :=
  (c10_stat_predicates ⟨0xF000, 0x8000, 0x4000⟩ uv_stat_t.new
    (by decide) (by decide) (by decide)).2.2.1

end Uvll
